import Mathlib

/-!
Verification of the core of `checkm/hmmer.py`: the tabular-output parser
(`HMMERParser`, `HmmerHitTBL`, `HmmerHitDOM`) and the bounded parallel model
extractor (`HMMERModelExtractor`).  The Python code (Python 2) is shallowly
embedded: strings stay strings, Python `int()` / `float()` become explicit
parsers into `Int` / `ℚ` (the exact decimal value of the literal; the model
covers the decimal/scientific grammar of `float()`, not the `inf`/`nan`
literals, which never occur in HMMER tables), exceptions become `Except`,
and the two multiprocessing queues of the extractor become an explicit
small-step transition system over a state record.
-/

/-- The characters Python's `str.rstrip()` / `\s` treat as whitespace
(space, tab, newline, carriage return, vertical tab, form feed). -/
def pyIsSpace (c : Char) : Bool :=
  c = ' ' || c = '\t' || c = '\n' || c = '\r' || c.toNat = 11 || c.toNat = 12

/-- Python `s.rstrip()`: drop trailing whitespace. -/
def pyRstrip (s : String) : String :=
  String.mk (s.toList.reverse.dropWhile pyIsSpace).reverse

/-- Python `s.strip()`: drop leading and trailing whitespace (used by
`int()` / `float()` before parsing). -/
def pyStrip (s : String) : String :=
  String.mk ((s.toList.dropWhile pyIsSpace).reverse.dropWhile pyIsSpace).reverse

/-- Worker for `pySplitWS`.  `inTok` records whether a token is currently
open (so a whitespace character closes it and emits it); `re.split` emits a
leading empty token when the string starts with whitespace, which the initial
`inTok := true` with an empty accumulator reproduces. -/
def wsSplitAux : List Char → Bool → List Char → List String
  | [], _, cur => [String.mk cur.reverse]
  | c :: rest, inTok, cur =>
    if pyIsSpace c then
      if inTok then String.mk cur.reverse :: wsSplitAux rest false []
      else wsSplitAux rest false []
    else wsSplitAux rest true (c :: cur)

/-- Python `re.split(r'\s+', s)`: split on maximal whitespace runs; a leading
run yields an initial empty field, a trailing run a final empty field. -/
def pySplitWS (s : String) : List String :=
  wsSplitAux s.toList true []

/-- Python `" ".join(l)` (the description-field recombination). -/
def joinSpace (l : List String) : String :=
  String.intercalate " " l

/-- Python `"\t".join(l)` (used by both `__str__` methods). -/
def joinTab (l : List String) : String :=
  String.intercalate "\t" l

/-- First character of a string (only consulted on nonempty strings, where
`line[0]` in the Python cannot raise). -/
def pyFirst (s : String) : Char :=
  s.toList.headD ' '

/-- Decimal value of a digit list (caller checks the digits). -/
def digitsVal (cs : List Char) : Nat :=
  cs.foldl (fun n c => 10 * n + (c.toNat - 48)) 0

/-- All characters are ASCII decimal digits. -/
def allDigits (cs : List Char) : Bool :=
  cs.all Char.isDigit

/-- Python 2 `int(s)` (base 10): strip whitespace, optional sign, a nonempty
digit run; anything else raises `ValueError` (here: `none`). -/
def pyIntParse (s : String) : Option Int :=
  match (pyStrip s).toList with
  | '-' :: ds => if ds = [] then none else if allDigits ds then some (-(digitsVal ds : Int)) else none
  | '+' :: ds => if ds = [] then none else if allDigits ds then some ((digitsVal ds : Int)) else none
  | ds => if ds = [] then none else if allDigits ds then some ((digitsVal ds : Int)) else none

/-- `q * 10 ^ e` for an integer exponent. -/
def ratTenPow (q : ℚ) (e : Int) : ℚ :=
  if 0 ≤ e then q * (10 : ℚ) ^ e.toNat else q / (10 : ℚ) ^ (-e).toNat

/-- Mantissa of a float literal: `digits [. digits]` or `. digits`, with at
least one digit in total; the exact rational it denotes. -/
def pyMantVal (cs : List Char) : Option ℚ :=
  let ip := cs.takeWhile (fun c => !(c == '.'))
  let rest := cs.dropWhile (fun c => !(c == '.'))
  let fp := match rest with
    | [] => ([] : List Char)
    | _ :: t => t
  if allDigits ip && allDigits fp && !(ip.isEmpty && fp.isEmpty) then
    some ((digitsVal (ip ++ fp) : ℚ) / (10 : ℚ) ^ fp.length)
  else none

/-- Exponent part of a float literal (the characters after `e`/`E`):
optional sign then a nonempty digit run. -/
def pyExpVal : List Char → Option Int
  | [] => none
  | '-' :: ds => if ds = [] then none else if allDigits ds then some (-(digitsVal ds : Int)) else none
  | '+' :: ds => if ds = [] then none else if allDigits ds then some ((digitsVal ds : Int)) else none
  | ds => if allDigits ds then some ((digitsVal ds : Int)) else none

/-- Python `float(s)` on the decimal/scientific grammar, as the exact
rational value of the literal (`none` = `ValueError`). -/
def pyFloatParse (s : String) : Option ℚ :=
  let cs := (pyStrip s).toList
  let sgnBody : Bool × List Char :=
    match cs with
    | '-' :: rest => (true, rest)
    | '+' :: rest => (false, rest)
    | rest => (false, rest)
  let mant := sgnBody.2.takeWhile (fun c => !(c == 'e' || c == 'E'))
  let erest := sgnBody.2.dropWhile (fun c => !(c == 'e' || c == 'E'))
  let expv : Option Int :=
    match erest with
    | [] => some 0
    | _ :: et => pyExpVal et
  match pyMantVal mant, expv with
  | some m, some e => some (if sgnBody.1 then -(ratTenPow m e) else ratTenPow m e)
  | _, _ => none

/-- Python `str(i)` for an int. -/
def pyIntStr (i : Int) : String :=
  toString i

/-- Fuel-driven base-10 logarithm (digit count minus one); fuel-structural so
that it reduces inside the kernel. -/
def log10F : Nat → Nat → Nat
  | 0, _ => 0
  | f + 1, n => if n < 10 then 0 else log10F f (n / 10) + 1

/-- `Nat.log 10` via fuel. -/
def nlog10 (n : Nat) : Nat :=
  log10F n n

/-- `10 ^ e ≤ a / b` for naturals `a b` (with `b ≠ 0`) and integer `e`. -/
def tenPowLe (a b : Nat) (e : Int) : Bool :=
  if 0 ≤ e then decide (b * 10 ^ e.toNat ≤ a) else decide (b ≤ a * 10 ^ (-e).toNat)

/-- Decimal exponent of the positive rational `a / b`: the `E` with
`10 ^ E ≤ a / b < 10 ^ (E + 1)`. -/
def decExpAux (a b : Nat) : Int :=
  let e0 : Int := (nlog10 a : Int) - (nlog10 b : Int)
  if tenPowLe a b e0 then e0 else e0 - 1

/-- Round a positive rational to 12 significant decimal digits (round half to
even, as C's `%.12g` does): the digit block (in `[10^11, 10^12)`) and the
decimal exponent of the leading digit. -/
def sig12 (aq : ℚ) : Nat × Int :=
  let E := decExpAux aq.num.toNat aq.den
  let scaled := ratTenPow aq (11 - E)
  let a := scaled.num.toNat
  let b := scaled.den
  let n0 := a / b
  let rem := a % b
  let n :=
    if b < 2 * rem then n0 + 1
    else if 2 * rem < b then n0
    else if n0 % 2 = 0 then n0 else n0 + 1
  if n = 10 ^ 12 then (10 ^ 11, E + 1) else (n, E)

/-- Drop trailing zero digits (the significand always keeps its nonzero
leading digit). -/
def stripTrailZeros (ds : List Char) : List Char :=
  (ds.reverse.dropWhile (fun c => c == '0')).reverse

/-- Digit characters of a natural number. -/
def natDigitsStr (n : Nat) : List Char :=
  (toString n).toList

/-- At least two digits for a printed exponent, as C's `%g` emits. -/
def twoPad (n : Nat) : String :=
  if n < 10 then "0" ++ toString n else toString n

/-- Positional rendering of significant digits `ds` at decimal exponent `E`
(for `-4 ≤ E < 12`), with Python's trailing `.0` for integral values. -/
def pyFloatStrPos (ds : List Char) (E : Int) : String :=
  if 0 ≤ E then
    let k := E.toNat + 1
    if ds.length ≤ k then String.mk (ds ++ List.replicate (k - ds.length) '0') ++ ".0"
    else String.mk (ds.take k) ++ "." ++ String.mk (ds.drop k)
  else
    "0." ++ String.mk (List.replicate ((-E).toNat - 1) '0' ++ ds)

/-- Scientific rendering `d[.ddd]e±XX` of significant digits `ds` at decimal
exponent `E` (for `E < -4` or `E ≥ 12`). -/
def pyFloatStrExp (ds : List Char) (E : Int) : String :=
  let mant := String.mk [ds.headD '0'] ++ (if ds.length ≤ 1 then "" else "." ++ String.mk ds.tail)
  mant ++ "e" ++ (if E < 0 then "-" else "+") ++ twoPad E.natAbs

/-- Python 2 `str(x)` for a float: `%.12g` plus the `.0` suffix on integral
positional output.  For literals of at most 12 significant digits (every
value HMMER emits) this agrees byte-for-byte with CPython. -/
def pyFloatStr (q : ℚ) : String :=
  if q = 0 then "0.0"
  else
    let sgn := if q < 0 then "-" else ""
    let aq := if q < 0 then -q else q
    let p := sig12 aq
    let ds := stripTrailZeros (natDigitsStr p.1)
    if p.2 < -4 ∨ 12 ≤ p.2 then sgn ++ pyFloatStrExp ds p.2 else sgn ++ pyFloatStrPos ds p.2

/-- Exceptions the parser and record constructors can raise:
`valueError s` models Python's `ValueError` from `int(s)` / `float(s)`;
`formatError line` models `FormatError("Error processing line:\n%s" % line)`. -/
inductive PyErr where
  | valueError (s : String)
  | formatError (line : String)
deriving DecidableEq

/-- `hmmer.HmmerHitTBL` (tblout form), with its fields in source order:
four name/accession strings, seven floats, seven ints, the description. -/
structure HmmerHitTBL where
  target_name : String
  target_accession : String
  query_name : String
  query_accession : String
  full_e_value : ℚ
  full_score : ℚ
  full_bias : ℚ
  best_e_value : ℚ
  best_score : ℚ
  best_bias : ℚ
  exp : ℚ
  reg : Int
  clu : Int
  ov : Int
  env : Int
  dom : Int
  rep : Int
  inc : Int
  target_description : String
deriving DecidableEq

/-- `hmmer.HmmerHitDOM` (domtblout form), fields in source order. -/
structure HmmerHitDOM where
  target_name : String
  target_accession : String
  target_length : Int
  query_name : String
  query_accession : String
  query_length : Int
  full_e_value : ℚ
  full_score : ℚ
  full_bias : ℚ
  dom : Int
  ndom : Int
  c_evalue : ℚ
  i_evalue : ℚ
  dom_score : ℚ
  dom_bias : ℚ
  hmm_from : Int
  hmm_to : Int
  ali_from : Int
  ali_to : Int
  env_from : Int
  env_to : Int
  acc : ℚ
  target_description : String
deriving DecidableEq

/-- Result of `HmmerHitTBL.__init__`: Python's `if len(values) == 19:` guard
has no `else`, so a wrong-length argument silently produces an object with
no attributes set (`unpopulated`); a correct-length argument sets them all
(`populated`), unless a numeric conversion raises. -/
inductive TBLInit where
  | populated (r : HmmerHitTBL)
  | unpopulated
deriving DecidableEq

/-- Result of `HmmerHitDOM.__init__`, same shape (guard `len(values) == 23`). -/
inductive DOMInit where
  | populated (r : HmmerHitDOM)
  | unpopulated
deriving DecidableEq

instance {ε α : Type} [DecidableEq ε] [DecidableEq α] : DecidableEq (Except ε α) := fun a b =>
  match a, b with
  | Except.ok x, Except.ok y =>
    if h : x = y then Decidable.isTrue (by rw [h]) else Decidable.isFalse (by simp [h])
  | Except.error x, Except.error y =>
    if h : x = y then Decidable.isTrue (by rw [h]) else Decidable.isFalse (by simp [h])
  | Except.ok _, Except.error _ => Decidable.isFalse (by simp)
  | Except.error _, Except.ok _ => Decidable.isFalse (by simp)

/-- `float(values[i])`, raising `ValueError` on failure. -/
def pyFloatE (s : String) : Except PyErr ℚ :=
  match pyFloatParse s with
  | some q => Except.ok q
  | none => Except.error (PyErr.valueError s)

/-- `int(values[i])`, raising `ValueError` on failure. -/
def pyIntE (s : String) : Except PyErr Int :=
  match pyIntParse s with
  | some i => Except.ok i
  | none => Except.error (PyErr.valueError s)

/-- `HmmerHitTBL.__init__(values)`: with exactly 19 values, assign the
fields in source order (the query accession defaults to the query name when
reported as `-`; the target accession is stored verbatim); with any other
length the constructor silently does nothing. -/
def mkHmmerHitTBL : List String → Except PyErr TBLInit
  | [v0, v1, v2, v3, v4, v5, v6, v7, v8, v9, v10, v11, v12, v13, v14, v15, v16, v17, v18] =>
    Except.bind (pyFloatE v4) (fun full_e_value =>
    Except.bind (pyFloatE v5) (fun full_score =>
    Except.bind (pyFloatE v6) (fun full_bias =>
    Except.bind (pyFloatE v7) (fun best_e_value =>
    Except.bind (pyFloatE v8) (fun best_score =>
    Except.bind (pyFloatE v9) (fun best_bias =>
    Except.bind (pyFloatE v10) (fun expv =>
    Except.bind (pyIntE v11) (fun reg =>
    Except.bind (pyIntE v12) (fun clu =>
    Except.bind (pyIntE v13) (fun ov =>
    Except.bind (pyIntE v14) (fun env =>
    Except.bind (pyIntE v15) (fun dom =>
    Except.bind (pyIntE v16) (fun rep =>
    Except.bind (pyIntE v17) (fun inc =>
    Except.ok (TBLInit.populated
      { target_name := v0
        target_accession := v1
        query_name := v2
        query_accession := if v3 = "-" then v2 else v3
        full_e_value := full_e_value
        full_score := full_score
        full_bias := full_bias
        best_e_value := best_e_value
        best_score := best_score
        best_bias := best_bias
        exp := expv
        reg := reg
        clu := clu
        ov := ov
        env := env
        dom := dom
        rep := rep
        inc := inc
        target_description := v18 })))))))))))))))
  | _ => Except.ok TBLInit.unpopulated

/-- `HmmerHitDOM.__init__(values)`: with exactly 23 values, assign the
fields in source order (again only the query accession defaults); any other
length silently does nothing. -/
def mkHmmerHitDOM : List String → Except PyErr DOMInit
  | [v0, v1, v2, v3, v4, v5, v6, v7, v8, v9, v10, v11, v12, v13, v14, v15, v16, v17, v18, v19,
     v20, v21, v22] =>
    Except.bind (pyIntE v2) (fun target_length =>
    Except.bind (pyIntE v5) (fun query_length =>
    Except.bind (pyFloatE v6) (fun full_e_value =>
    Except.bind (pyFloatE v7) (fun full_score =>
    Except.bind (pyFloatE v8) (fun full_bias =>
    Except.bind (pyIntE v9) (fun dom =>
    Except.bind (pyIntE v10) (fun ndom =>
    Except.bind (pyFloatE v11) (fun c_evalue =>
    Except.bind (pyFloatE v12) (fun i_evalue =>
    Except.bind (pyFloatE v13) (fun dom_score =>
    Except.bind (pyFloatE v14) (fun dom_bias =>
    Except.bind (pyIntE v15) (fun hmm_from =>
    Except.bind (pyIntE v16) (fun hmm_to =>
    Except.bind (pyIntE v17) (fun ali_from =>
    Except.bind (pyIntE v18) (fun ali_to =>
    Except.bind (pyIntE v19) (fun env_from =>
    Except.bind (pyIntE v20) (fun env_to =>
    Except.bind (pyFloatE v21) (fun acc =>
    Except.ok (DOMInit.populated
      { target_name := v0
        target_accession := v1
        target_length := target_length
        query_name := v3
        query_accession := if v4 = "-" then v3 else v4
        query_length := query_length
        full_e_value := full_e_value
        full_score := full_score
        full_bias := full_bias
        dom := dom
        ndom := ndom
        c_evalue := c_evalue
        i_evalue := i_evalue
        dom_score := dom_score
        dom_bias := dom_bias
        hmm_from := hmm_from
        hmm_to := hmm_to
        ali_from := ali_from
        ali_to := ali_to
        env_from := env_from
        env_to := env_to
        acc := acc
        target_description := v22 })))))))))))))))))))
  | _ => Except.ok DOMInit.unpopulated

/-- The 19 strings `HmmerHitTBL.__str__` joins with tabs, in source order. -/
def strFieldsTBL (r : HmmerHitTBL) : List String :=
  [r.target_name, r.target_accession, r.query_name, r.query_accession,
   pyFloatStr r.full_e_value, pyFloatStr r.full_score, pyFloatStr r.full_bias,
   pyFloatStr r.best_e_value, pyFloatStr r.best_score, pyFloatStr r.best_bias,
   pyFloatStr r.exp, pyIntStr r.reg, pyIntStr r.clu, pyIntStr r.ov, pyIntStr r.env,
   pyIntStr r.dom, pyIntStr r.rep, pyIntStr r.inc, r.target_description]

/-- `HmmerHitTBL.__str__`. -/
def hmmerHitTBLStr (r : HmmerHitTBL) : String :=
  joinTab (strFieldsTBL r)

/-- The 23 strings `HmmerHitDOM.__str__` joins with tabs, in source order. -/
def strFieldsDOM (r : HmmerHitDOM) : List String :=
  [r.target_name, r.target_accession, pyIntStr r.target_length, r.query_name,
   r.query_accession, pyIntStr r.query_length, pyFloatStr r.full_e_value,
   pyFloatStr r.full_score, pyFloatStr r.full_bias, pyIntStr r.dom, pyIntStr r.ndom,
   pyFloatStr r.c_evalue, pyFloatStr r.i_evalue, pyFloatStr r.dom_score,
   pyFloatStr r.dom_bias, pyIntStr r.hmm_from, pyIntStr r.hmm_to, pyIntStr r.ali_from,
   pyIntStr r.ali_to, pyIntStr r.env_from, pyIntStr r.env_to, pyFloatStr r.acc,
   r.target_description]

/-- `HmmerHitDOM.__str__`. -/
def hmmerHitDOMStr (r : HmmerHitDOM) : String :=
  joinTab (strFieldsDOM r)

/-- `HMMERParser.readHitsTBL` over the remaining lines of the handle
(`readline()` at end-of-file returns `''`, which `line[0]` turns into an
`IndexError`, caught and returned as the `{}` sentinel, here `none`).  Note
that the guard `line[0] != '#' and len(line) != 0` indexes before testing
emptiness, so a blank line also takes the `IndexError` path.  The state is
the list of lines not yet consumed. -/
def readHitsTBL : List String → Except PyErr (Option TBLInit) × List String
  | [] => (Except.ok none, [])
  | l :: rest =>
    let line := pyRstrip l
    if line = "" then (Except.ok none, rest)
    else if pyFirst line = '#' then readHitsTBL rest
    else
      let dMatch := pySplitWS (pyRstrip line)
      if dMatch.length < 19 then (Except.error (PyErr.formatError line), rest)
      else
        match mkHmmerHitTBL (dMatch.take 18 ++ [joinSpace (dMatch.drop 18)]) with
        | Except.ok hit => (Except.ok (some hit), rest)
        | Except.error e => (Except.error e, rest)

/-- `HMMERParser.readHitsDOM` (domtblout form; minimum 23 fields, refold from
field 22 onward). -/
def readHitsDOM : List String → Except PyErr (Option DOMInit) × List String
  | [] => (Except.ok none, [])
  | l :: rest =>
    let line := pyRstrip l
    if line = "" then (Except.ok none, rest)
    else if pyFirst line = '#' then readHitsDOM rest
    else
      let dMatch := pySplitWS (pyRstrip line)
      if dMatch.length < 23 then (Except.error (PyErr.formatError line), rest)
      else
        match mkHmmerHitDOM (dMatch.take 22 ++ [joinSpace (dMatch.drop 22)]) with
        | Except.ok hit => (Except.ok (some hit), rest)
        | Except.error e => (Except.error e, rest)

/-- `HMMERParser.next()` in `tbl` mode: dispatches to `readHitsTBL`; the
`hit == {}` comparison maps the sentinel to `None`, which the `none` of
`readHitsTBL` already is. -/
def nextHitTBL (st : List String) : Except PyErr (Option TBLInit) × List String :=
  readHitsTBL st

/-- `HMMERParser.next()` in `dom` mode. -/
def nextHitDOM (st : List String) : Except PyErr (Option DOMInit) × List String :=
  readHitsDOM st

/-- `n` successive `next()` results in `tbl` mode, threading the handle. -/
def iterTBL : Nat → List String → List (Except PyErr (Option TBLInit))
  | 0, _ => []
  | n + 1, st => (nextHitTBL st).1 :: iterTBL n (nextHitTBL st).2

/-- `n` successive `next()` results in `dom` mode. -/
def iterDOM : Nat → List String → List (Except PyErr (Option DOMInit))
  | 0, _ => []
  | n + 1, st => (nextHitDOM st).1 :: iterDOM n (nextHitDOM st).2

/-- The populated record inside a constructor result, when there is one. -/
def getTBL : Except PyErr TBLInit → Option HmmerHitTBL
  | Except.ok (TBLInit.populated r) => some r
  | _ => none

/-- The populated record inside a `DOMInit` constructor result. -/
def getDOM : Except PyErr DOMInit → Option HmmerHitDOM
  | Except.ok (DOMInit.populated r) => some r
  | _ => none

/-- The re-serialized field list of the record a `next()` call produced,
when it produced a populated record. -/
def serializedOf (x : Except PyErr (Option TBLInit) × List String) : Option (List String) :=
  match x.1 with
  | Except.ok (some (TBLInit.populated r)) => some (strFieldsTBL r)
  | _ => none

/-! ## The parallel model extractor

`HMMERModelExtractor.extract` builds a FIFO work queue holding one
`(modelAcc, fetchFilename)` task per requested model (the filename a fresh
`uuid4` path) followed by one `(None, None)` sentinel per worker process,
spawns `totalThreads` workers (`__extractModel`) and one writer
(`__reportModelExtractionProgress`), joins the workers, pushes one sentinel
onto the writer queue, and joins the writer.  A worker loops popping tasks:
a sentinel stops it, otherwise it runs `hmmfetch` (writing the model's text
to the task's temp path) and pushes the task onto the writer queue.  The
writer opens the output file with mode `'w'`, then loops popping: a sentinel
stops it, otherwise it appends the temp file's content to the output file
and deletes the temp file.

The embedding is a small-step transition system.  A queue message is
`Option (String × String)` (`none` is the `(None, None)` sentinel).  Workers
are interchangeable, so the state keeps only how many are still running.
The temp directory is an association list from path to content; `fetch` is
the (deterministic) text `hmmfetch` emits for a key of the model database.
The `written` field is instrumentation only: the `(modelAcc, path)` pairs
the writer has processed, in order. -/

/-- Write (create or truncate) the file at `p` with content `c`. -/
def fsWrite (m : List (String × String)) (p c : String) : List (String × String) :=
  m.filter (fun e => !(e.1 == p)) ++ [(p, c)]

/-- `os.remove(p)`. -/
def fsRemove (m : List (String × String)) (p : String) : List (String × String) :=
  m.filter (fun e => !(e.1 == p))

/-- State of one `extract` call in flight. -/
structure ExtractState where
  workQueue : List (Option (String × String))
  writerQueue : List (Option (String × String))
  running : Nat
  mainPushed : Bool
  writerStarted : Bool
  writerDone : Bool
  temp : List (String × String)
  outFile : String
  written : List (String × String)
deriving DecidableEq

/-- Initial state of `extract(hmmModelFile, modelAccIds, ouputModelFile)`:
`tasks` pairs each requested model accession with its generated temp path;
`threads` workers are spawned; `prior` is whatever the output file held
before the call. -/
def extractInit (tasks : List (String × String)) (threads : Nat) (prior : String) :
    ExtractState :=
  { workQueue := tasks.map some ++ List.replicate threads none
    writerQueue := []
    running := threads
    mainPushed := false
    writerStarted := false
    writerDone := false
    temp := []
    outFile := prior
    written := [] }

/-- One scheduler step of the extraction.  `workerTask`: a running worker
pops a task, runs `hmmfetch` (writing `fetch acc` to the temp path) and
pushes the task to the writer queue.  `workerStop`: a running worker pops a
sentinel and exits its loop.  `mainDone`: after all workers are joined, the
main process pushes the writer's sentinel (once).  `writerOpen`: the writer
opens the output file with mode `'w'`, truncating it.  `writerCopy`: the
writer pops a task, appends the temp file's content to the output file and
removes the temp file.  `writerStop`: the writer pops the sentinel and
stops. -/
inductive EStep (fetch : String → String) : ExtractState → ExtractState → Prop where
  | workerTask (s : ExtractState) (acc path : String) (rest : List (Option (String × String)))
      (hrun : s.running ≠ 0) (hq : s.workQueue = some (acc, path) :: rest) :
      EStep fetch s { s with
        workQueue := rest
        temp := fsWrite s.temp path (fetch acc)
        writerQueue := s.writerQueue ++ [some (acc, path)] }
  | workerStop (s : ExtractState) (rest : List (Option (String × String)))
      (hrun : s.running ≠ 0) (hq : s.workQueue = none :: rest) :
      EStep fetch s { s with workQueue := rest, running := s.running - 1 }
  | mainDone (s : ExtractState) (hrun : s.running = 0) (hp : s.mainPushed = false) :
      EStep fetch s { s with writerQueue := s.writerQueue ++ [none], mainPushed := true }
  | writerOpen (s : ExtractState) (hs : s.writerStarted = false) :
      EStep fetch s { s with writerStarted := true, outFile := "" }
  | writerCopy (s : ExtractState) (acc path content : String)
      (rest : List (Option (String × String)))
      (hs : s.writerStarted = true) (hd : s.writerDone = false)
      (hq : s.writerQueue = some (acc, path) :: rest)
      (hc : s.temp.lookup path = some content) :
      EStep fetch s { s with
        writerQueue := rest
        outFile := s.outFile ++ content
        temp := fsRemove s.temp path
        written := s.written ++ [(acc, path)] }
  | writerStop (s : ExtractState) (rest : List (Option (String × String)))
      (hs : s.writerStarted = true) (hd : s.writerDone = false)
      (hq : s.writerQueue = none :: rest) :
      EStep fetch s { s with writerQueue := rest, writerDone := true }

/-- Reachability under the scheduler. -/
inductive EReach (fetch : String → String) (s0 : ExtractState) : ExtractState → Prop where
  | refl : EReach fetch s0 s0
  | step {s s' : ExtractState} : EReach fetch s0 s → EStep fetch s s' → EReach fetch s0 s'

/-- The inductive invariant of the extraction: the work queue is the pending
tasks followed by one sentinel per still-running worker; the writer queue is
the fetched-but-unwritten tasks, with the main sentinel at its end once
pushed; pending + in-flight + written tasks are a permutation of the
requested tasks; the temp directory holds exactly the in-flight tasks'
files; and once the writer has opened the output file its content is the
concatenation of the written models. -/
def EInv (fetch : String → String) (tasks : List (String × String)) (s : ExtractState) :
    Prop :=
  ∃ wqts wrts : List (String × String),
    s.workQueue = wqts.map some ++ List.replicate s.running none
    ∧ (s.running = 0 → wqts = [])
    ∧ s.writerQueue = wrts.map some ++
        (if s.mainPushed = true ∧ s.writerDone = false then [none] else [])
    ∧ (s.mainPushed = true → s.running = 0)
    ∧ (s.writerDone = true → s.mainPushed = true ∧ s.writerStarted = true ∧ wrts = [])
    ∧ (wqts ++ wrts ++ s.written).Perm tasks
    ∧ s.temp = wrts.map (fun t => (t.2, fetch t.1))
    ∧ (s.writerStarted = true → s.outFile = String.join (s.written.map (fun t => fetch t.1)))
    ∧ (s.writerStarted = false → s.written = [])

/-- Concrete demonstration run: two models, one worker, fetch returns the
key followed by a newline, and the output file holds `OLD` before the call. -/
def demoFetch : String → String := fun acc => acc ++ "\n"

/-- The two demonstration tasks (distinct uuid paths). -/
def demoTasks : List (String × String) := [("m1", "p1"), ("m2", "p2")]

/-- Terminal state of the demonstration run. -/
def demoFinal : ExtractState :=
  { workQueue := []
    writerQueue := []
    running := 0
    mainPushed := true
    writerStarted := true
    writerDone := true
    temp := []
    outFile := "m1\nm2\n"
    written := [("m1", "p1"), ("m2", "p2")] }

/-- A valid tblout data line (19 fields: 4 names, 7 floats, 7 ints,
description). -/
def c3TblLine : String :=
  "A - B - 0.5 1.0 2.0 3.0 4.0 5.0 6.0 7 8 9 10 11 12 13 d"

/-- A valid domtblout data line (23 fields). -/
def c3DomLine : String :=
  "A - 100 B - 200 1.0 2.0 3.0 1 1 4.0 5.0 6.0 7.0 1 2 3 4 5 6 0.9 d"

/-- Did this `next()` call produce a populated tblout record? -/
def producedTBL (x : Except PyErr (Option TBLInit) × List String) : Bool :=
  match x.1 with
  | Except.ok (some (TBLInit.populated _)) => true
  | _ => false

/-- Did this `next()` call produce a populated domtblout record? -/
def producedDOM (x : Except PyErr (Option DOMInit) × List String) : Bool :=
  match x.1 with
  | Except.ok (some (DOMInit.populated _)) => true
  | _ => false

/-- The name, query-accession and description fields of the record a
`next()` call produced, when it produced one. -/
def tblKeyFields (x : Except PyErr (Option TBLInit) × List String) :
    Option (String × String × String) :=
  match x.1 with
  | Except.ok (some (TBLInit.populated r)) =>
    some (r.target_name, r.query_accession, r.target_description)
  | _ => none

/-- A 19-field line whose 12th field has a leading zero and whose
query-accession field is `-`. -/
def c5BadLine : String :=
  "X - Q - 1.0 2.0 3.0 4.0 5.0 6.0 7.0 07 0 0 1 1 1 1 d"

/-- A 19-field line in which every numeric field is already in Python's
canonical `str()` form and the query accession is present. -/
def c5CanonLine : String :=
  "NODE_1 - Ribosomal_S9 PF00380.14 5.9e-48 158.7 0.0 6.7e-48 158.5 0.0 1.0 1 0 0 1 1 1 1 hit"

/-- A 19-value list whose target-accession entry is `-`. -/
def c6TblVals : List String :=
  ["T", "-", "Q", "QA", "1.0", "2.0", "3.0", "4.0", "5.0", "6.0", "7.0",
   "1", "2", "3", "4", "5", "6", "7", "d"]

/-- A 23-value list whose target-accession entry is `-`. -/
def c6DomVals : List String :=
  ["T", "-", "100", "Q", "QA", "200", "1.0", "2.0", "3.0", "1", "1", "4.0",
   "5.0", "6.0", "7.0", "1", "2", "3", "4", "5", "6", "0.9", "d"]

/-- The spec's concrete 2-line scenario input, split into lines. -/
def c7Input : List String :=
  ["# header", "A - B - 1.0 2.0 3.0 4.0 5.0 6.0 7 8 9 10 11 12 13 desc words here"]

/-- The scenario input with one more numeric field, so that the line has the
18 discrete fields the tblout layout requires before the description. -/
def c7Fixed : List String :=
  ["# header", "A - B - 0.5 1.0 2.0 3.0 4.0 5.0 6.0 7 8 9 10 11 12 13 desc words here"]

/-! ## Helper lemmas -/

theorem bindFloatE_ok {α : Type} {s : String} {f : ℚ → Except PyErr α} {x : α}
    (h : Except.bind (pyFloatE s) f = Except.ok x) :
    ∃ q, pyFloatParse s = some q ∧ f q = Except.ok x := by
  cases hq : pyFloatParse s with
  | none =>
    rw [show pyFloatE s = Except.error (PyErr.valueError s) from by simp [pyFloatE, hq]] at h
    exact absurd h (by simp [Except.bind])
  | some q =>
    rw [show pyFloatE s = Except.ok q from by simp [pyFloatE, hq]] at h
    exact ⟨q, rfl, h⟩

theorem bindIntE_ok {α : Type} {s : String} {f : Int → Except PyErr α} {x : α}
    (h : Except.bind (pyIntE s) f = Except.ok x) :
    ∃ i, pyIntParse s = some i ∧ f i = Except.ok x := by
  cases hq : pyIntParse s with
  | none =>
    rw [show pyIntE s = Except.error (PyErr.valueError s) from by simp [pyIntE, hq]] at h
    exact absurd h (by simp [Except.bind])
  | some i =>
    rw [show pyIntE s = Except.ok i from by simp [pyIntE, hq]] at h
    exact ⟨i, rfl, h⟩

theorem mkTBL_inv (v0 v1 v2 v3 v4 v5 v6 v7 v8 v9 v10 v11 v12 v13 v14 v15 v16 v17 v18 : String)
    (r : HmmerHitTBL)
    (h : mkHmmerHitTBL [v0, v1, v2, v3, v4, v5, v6, v7, v8, v9, v10, v11, v12, v13, v14, v15,
      v16, v17, v18] = Except.ok (TBLInit.populated r)) :
    r.target_name = v0 ∧ r.target_accession = v1 ∧ r.query_name = v2 ∧
    r.query_accession = (if v3 = "-" then v2 else v3) ∧
    pyFloatParse v4 = some r.full_e_value ∧ pyFloatParse v5 = some r.full_score ∧
    pyFloatParse v6 = some r.full_bias ∧ pyFloatParse v7 = some r.best_e_value ∧
    pyFloatParse v8 = some r.best_score ∧ pyFloatParse v9 = some r.best_bias ∧
    pyFloatParse v10 = some r.exp ∧ pyIntParse v11 = some r.reg ∧
    pyIntParse v12 = some r.clu ∧ pyIntParse v13 = some r.ov ∧
    pyIntParse v14 = some r.env ∧ pyIntParse v15 = some r.dom ∧
    pyIntParse v16 = some r.rep ∧ pyIntParse v17 = some r.inc ∧
    r.target_description = v18 := by
  simp only [mkHmmerHitTBL] at h
  obtain ⟨q4, h4, h⟩ := bindFloatE_ok h
  obtain ⟨q5, h5, h⟩ := bindFloatE_ok h
  obtain ⟨q6, h6, h⟩ := bindFloatE_ok h
  obtain ⟨q7, h7, h⟩ := bindFloatE_ok h
  obtain ⟨q8, h8, h⟩ := bindFloatE_ok h
  obtain ⟨q9, h9, h⟩ := bindFloatE_ok h
  obtain ⟨q10, h10, h⟩ := bindFloatE_ok h
  obtain ⟨i11, h11, h⟩ := bindIntE_ok h
  obtain ⟨i12, h12, h⟩ := bindIntE_ok h
  obtain ⟨i13, h13, h⟩ := bindIntE_ok h
  obtain ⟨i14, h14, h⟩ := bindIntE_ok h
  obtain ⟨i15, h15, h⟩ := bindIntE_ok h
  obtain ⟨i16, h16, h⟩ := bindIntE_ok h
  obtain ⟨i17, h17, h⟩ := bindIntE_ok h
  simp only [Except.ok.injEq, TBLInit.populated.injEq] at h
  subst h
  simp_all

theorem mkDOM_inv (w0 w1 w2 w3 w4 w5 w6 w7 w8 w9 w10 w11 w12 w13 w14 w15 w16 w17 w18 w19
    w20 w21 w22 : String) (q : HmmerHitDOM)
    (h : mkHmmerHitDOM [w0, w1, w2, w3, w4, w5, w6, w7, w8, w9, w10, w11, w12, w13, w14,
      w15, w16, w17, w18, w19, w20, w21, w22] = Except.ok (DOMInit.populated q)) :
    q.target_name = w0 ∧ q.target_accession = w1 ∧ q.query_name = w3 ∧
    q.query_accession = (if w4 = "-" then w3 else w4) ∧ q.target_description = w22 := by
  simp only [mkHmmerHitDOM] at h
  obtain ⟨i2, h2, h⟩ := bindIntE_ok h
  obtain ⟨i5, h5, h⟩ := bindIntE_ok h
  obtain ⟨q6, h6, h⟩ := bindFloatE_ok h
  obtain ⟨q7, h7, h⟩ := bindFloatE_ok h
  obtain ⟨q8, h8, h⟩ := bindFloatE_ok h
  obtain ⟨i9, h9, h⟩ := bindIntE_ok h
  obtain ⟨i10, h10, h⟩ := bindIntE_ok h
  obtain ⟨q11, h11, h⟩ := bindFloatE_ok h
  obtain ⟨q12, h12, h⟩ := bindFloatE_ok h
  obtain ⟨q13, h13, h⟩ := bindFloatE_ok h
  obtain ⟨q14, h14, h⟩ := bindFloatE_ok h
  obtain ⟨i15, h15, h⟩ := bindIntE_ok h
  obtain ⟨i16, h16, h⟩ := bindIntE_ok h
  obtain ⟨i17, h17, h⟩ := bindIntE_ok h
  obtain ⟨i18, h18, h⟩ := bindIntE_ok h
  obtain ⟨i19, h19, h⟩ := bindIntE_ok h
  obtain ⟨i20, h20, h⟩ := bindIntE_ok h
  obtain ⟨q21, h21, h⟩ := bindFloatE_ok h
  simp only [Except.ok.injEq, DOMInit.populated.injEq] at h
  subst h
  simp

theorem mkTBL_arity (values : List String) (h : values.length ≠ 19) :
    mkHmmerHitTBL values = Except.ok TBLInit.unpopulated := by
  unfold mkHmmerHitTBL
  split
  · simp_all
  · rfl

theorem mkDOM_arity (values : List String) (h : values.length ≠ 23) :
    mkHmmerHitDOM values = Except.ok DOMInit.unpopulated := by
  unfold mkHmmerHitDOM
  split
  · simp_all
  · rfl

theorem tbl_roundtrip_step
    (line : String) (rest : List String)
    (v0 v1 v2 v3 v4 v5 v6 v7 v8 v9 v10 v11 v12 v13 v14 v15 v16 v17 v18 : String)
    (hne : pyRstrip line ≠ "") (hcm : pyFirst (pyRstrip line) ≠ '#')
    (hsplit : pySplitWS (pyRstrip (pyRstrip line)) =
      [v0, v1, v2, v3, v4, v5, v6, v7, v8, v9, v10, v11, v12, v13, v14, v15, v16, v17, v18]) :
    nextHitTBL (line :: rest) =
      (match mkHmmerHitTBL [v0, v1, v2, v3, v4, v5, v6, v7, v8, v9, v10, v11, v12, v13, v14,
        v15, v16, v17, v18] with
       | Except.ok hit => (Except.ok (some hit), rest)
       | Except.error e => (Except.error e, rest)) := by
  simp only [nextHitTBL, readHitsTBL]
  rw [if_neg hne, if_neg hcm, hsplit]
  rfl

theorem permRotIn {α : Type} (a b c acc : List α) (x : α)
    (h : ((x :: a) ++ b ++ c).Perm acc) : (a ++ (b ++ [x]) ++ c).Perm acc :=
  ((((List.perm_append_singleton x b).append_left a).trans List.perm_middle).append_right
    c).trans h

theorem permRotOut {α : Type} (a b c acc : List α) (x : α)
    (h : (a ++ (x :: b) ++ c).Perm acc) : (a ++ b ++ (c ++ [x])).Perm acc := by
  rw [← List.append_assoc (a ++ b) c [x]]
  exact ((List.perm_append_singleton x ((a ++ b) ++ c)).trans
    ((List.perm_middle.symm).append_right c)).trans h

theorem mapSomeRepl_cons_some {α : Type} {l : List α} {k : Nat} {x : α}
    {rest : List (Option α)}
    (h : l.map some ++ List.replicate k none = some x :: rest) :
    ∃ l', l = x :: l' ∧ rest = l'.map some ++ List.replicate k none := by
  cases l with
  | nil =>
    cases k with
    | zero => simp at h
    | succ k => rw [List.replicate_succ] at h; simp at h
  | cons a l' =>
    simp only [List.map_cons, List.cons_append, List.cons.injEq] at h
    exact ⟨l', by rw [(Option.some.injEq _ _).mp h.1], h.2.symm⟩

theorem mapSomeRepl_cons_none {α : Type} {l : List α} {k : Nat}
    {rest : List (Option α)}
    (h : l.map some ++ List.replicate k none = none :: rest) :
    l = [] ∧ ∃ k', k = k' + 1 ∧ rest = List.replicate k' none := by
  cases l with
  | nil =>
    cases k with
    | zero => simp at h
    | succ k =>
      rw [List.replicate_succ] at h
      simp only [List.map_nil, List.nil_append, List.cons.injEq] at h
      exact ⟨rfl, k, rfl, h.2.symm⟩
  | cons a l' => simp at h

theorem filterNe_of_keys_ne {m : List (String × String)} {p : String}
    (h2 : ∀ e ∈ m, e.1 ≠ p) : m.filter (fun e => !(e.1 == p)) = m := by
  rw [List.filter_eq_self]
  intro e he
  simp [h2 e he]

theorem join_concat (l : List String) (x : String) :
    String.join (l ++ [x]) = String.join l ++ x := by
  simp [String.join, List.foldl_append]
theorem einv_step (fetch : String → String) (tasks : List (String × String))
    (hnodup : (tasks.map Prod.snd).Nodup) {s s' : ExtractState}
    (hinv : EInv fetch tasks s) (hstep : EStep fetch s s') : EInv fetch tasks s' := by
  obtain ⟨wqts, wrts, hwq, hwq0, hwrq, hmp, hwd, hperm, htemp, hout, hw0⟩ := hinv
  cases hstep with
  | workerTask acc path rest hrun hq =>
    rw [hwq] at hq
    obtain ⟨wqts', rfl, hrest⟩ := mapSomeRepl_cons_some hq
    have hmpf : s.mainPushed = false := by
      cases hmpv : s.mainPushed
      · rfl
      · exact absurd (hmp hmpv) hrun
    have hnd : (path :: ((wqts' ++ wrts ++ s.written).map Prod.snd)).Nodup :=
      ((hperm.map Prod.snd).nodup_iff).mpr hnodup
    have hnotin : path ∉ (wqts' ++ wrts ++ s.written).map Prod.snd :=
      (List.nodup_cons.mp hnd).1
    have hnw : path ∉ wrts.map Prod.snd := by
      simp only [List.map_append, List.mem_append, not_or] at hnotin
      exact hnotin.1.2
    have hkeys : ∀ e ∈ s.temp, e.1 ≠ path := by
      rw [htemp]
      intro e he
      obtain ⟨t, ht, rfl⟩ := List.mem_map.mp he
      intro hcontra
      exact hnw (hcontra ▸ List.mem_map_of_mem Prod.snd ht)
    refine ⟨wqts', wrts ++ [(acc, path)], hrest, ?_, ?_, hmp, ?_, ?_, ?_, hout, hw0⟩
    · intro h0; exact absurd h0 hrun
    · show s.writerQueue ++ [some (acc, path)] = _
      rw [hwrq]
      simp [hmpf]
    · intro hdt
      have := (hwd hdt).1
      rw [hmpf] at this
      cases this
    · exact permRotIn wqts' wrts s.written tasks (acc, path) hperm
    · show fsWrite s.temp path (fetch acc) = _
      unfold fsWrite
      rw [filterNe_of_keys_ne hkeys, htemp]
      simp
  | workerStop rest hrun hq =>
    rw [hwq] at hq
    obtain ⟨rfl, k', hk, hrest⟩ := mapSomeRepl_cons_none hq
    refine ⟨[], wrts, ?_, fun _ => rfl, hwrq, ?_, hwd, hperm, htemp, hout, hw0⟩
    · show rest = _
      rw [hrest, hk]
      simp
    · intro hmpt; exact absurd (hmp hmpt) hrun
  | mainDone hrun hp =>
    have hwdf : s.writerDone = false := by
      cases h : s.writerDone
      · rfl
      · have := (hwd h).1; rw [hp] at this; cases this
    refine ⟨wqts, wrts, hwq, hwq0, ?_, fun _ => hrun, ?_, hperm, htemp, hout, hw0⟩
    · show s.writerQueue ++ [none] = _
      rw [hwrq]
      simp [hp, hwdf]
    · intro h; rw [hwdf] at h; cases h
  | writerOpen hs =>
    refine ⟨wqts, wrts, hwq, hwq0, hwrq, hmp, ?_, hperm, htemp, ?_, ?_⟩
    · intro hdt
      have := (hwd hdt).2.1
      rw [hs] at this
      cases this
    · intro _
      show "" = String.join (s.written.map (fun t => fetch t.1))
      rw [hw0 hs]
      rfl
    · intro h; cases h
  | writerCopy acc path content rest hs hd hq hc =>
    rw [hwrq] at hq
    cases wrts with
    | nil =>
      exfalso
      by_cases hcnd : (s.mainPushed = true ∧ s.writerDone = false)
      · simp [hcnd] at hq
      · simp [hcnd] at hq
    | cons t wrts' =>
      simp only [List.map_cons, List.cons_append, List.cons.injEq] at hq
      obtain ⟨ht, hrest⟩ := hq
      have ht2 := Option.some.inj ht
      subst ht2
      have hcontent : content = fetch acc := by
        rw [htemp] at hc
        simp only [List.map_cons] at hc
        simp [List.lookup] at hc
        exact hc.symm
      subst hcontent
      have hnd : ((wqts ++ ((acc, path) :: wrts') ++ s.written).map Prod.snd).Nodup :=
        ((hperm.map Prod.snd).nodup_iff).mpr hnodup
      have hnd2 : (wqts.map Prod.snd ++
          (path :: (wrts'.map Prod.snd ++ s.written.map Prod.snd))).Nodup := by
        simpa [List.map_append] using hnd
      have hnw : path ∉ wrts'.map Prod.snd := by
        intro hmem
        exact (List.nodup_cons.mp hnd2.of_append_right).1 (List.mem_append.mpr (Or.inl hmem))
      have hkeys : ∀ e ∈ wrts'.map (fun t => (t.2, fetch t.1)), e.1 ≠ path := by
        intro e he
        obtain ⟨t', ht', rfl⟩ := List.mem_map.mp he
        intro hcontra
        exact hnw (hcontra ▸ List.mem_map_of_mem Prod.snd ht')
      refine ⟨wqts, wrts', hwq, hwq0, ?_, hmp, ?_, ?_, ?_, ?_, ?_⟩
      · exact hrest.symm
      · intro hdt; rw [hd] at hdt; cases hdt
      · exact permRotOut wqts wrts' s.written tasks (acc, path) hperm
      · rw [show fsRemove s.temp path =
            (wrts'.map (fun t => (t.2, fetch t.1))).filter (fun e => !(e.1 == path)) from by
          rw [htemp]; simp [fsRemove, List.filter_cons]]
        exact filterNe_of_keys_ne hkeys
      · intro _
        show s.outFile ++ fetch acc = _
        rw [hout hs]
        show _ = String.join ((s.written ++ [(acc, path)]).map (fun t => fetch t.1))
        rw [List.map_append,
          show List.map (fun t => (fetch t.1 : String)) [(acc, path)] = [fetch acc] from rfl,
          join_concat]
      · intro h; rw [hs] at h; cases h
  | writerStop rest hs hd hq =>
    rw [hwrq] at hq
    cases wrts with
    | cons t wrts' => simp at hq
    | nil =>
      simp only [List.map_nil, List.nil_append] at hq
      by_cases hcnd : (s.mainPushed = true ∧ s.writerDone = false)
      · rw [if_pos hcnd] at hq
        simp only [List.cons.injEq] at hq
        obtain ⟨-, hrest⟩ := hq
        refine ⟨wqts, [], hwq, hwq0, ?_, hmp, ?_, ?_, htemp, hout, hw0⟩
        · show rest = _
          rw [← hrest]
          simp
        · intro _; exact ⟨hcnd.1, hs, rfl⟩
        · exact hperm
      · rw [if_neg hcnd] at hq; cases hq

theorem einv_init (fetch : String → String) (tasks : List (String × String))
    (threads : Nat) (prior : String) (ht : 1 ≤ threads) :
    EInv fetch tasks (extractInit tasks threads prior) := by
  refine ⟨tasks, [], rfl, ?_, ?_, ?_, ?_, by simp [extractInit], rfl, ?_, fun _ => rfl⟩
  · intro h0
    exact absurd h0 (by show threads ≠ 0; omega)
  · show ([] : List (Option (String × String))) = _
    simp [extractInit]
  · intro h; simp [extractInit] at h
  · intro h; simp [extractInit] at h
  · intro h; simp [extractInit] at h

theorem einv_reach (fetch : String → String) (tasks : List (String × String))
    (threads : Nat) (prior : String) {s : ExtractState} (ht : 1 ≤ threads)
    (hnodup : (tasks.map Prod.snd).Nodup)
    (hr : EReach fetch (extractInit tasks threads prior) s) : EInv fetch tasks s := by
  induction hr with
  | refl => exact einv_init fetch tasks threads prior ht
  | step hr hst ih => exact einv_step fetch tasks hnodup ih hst

theorem extract_final_shape (fetch : String → String) (tasks : List (String × String))
    (threads : Nat) (prior : String) {s : ExtractState} (ht : 1 ≤ threads)
    (hnodup : (tasks.map Prod.snd).Nodup)
    (hr : EReach fetch (extractInit tasks threads prior) s)
    (hdone : s.writerDone = true) :
    (s.written.map Prod.fst).Perm (tasks.map Prod.fst) ∧
    s.outFile = String.join ((s.written.map Prod.fst).map fetch) ∧
    s.temp = [] := by
  obtain ⟨wqts, wrts, hwq, hwq0, hwrq, hmp, hwd, hperm, htemp, hout, hw0⟩ :=
    einv_reach fetch tasks threads prior ht hnodup hr
  obtain ⟨hmpt, hst, rfl⟩ := hwd hdone
  have hr0 : s.running = 0 := hmp hmpt
  have : wqts = [] := hwq0 hr0
  subst this
  simp only [List.nil_append] at hperm
  refine ⟨hperm.map Prod.fst, ?_, by simpa using htemp⟩
  rw [hout hst, List.map_map]
  rfl

theorem demoReach : EReach demoFetch (extractInit demoTasks 1 "OLD") demoFinal := by
  have r1 : EReach demoFetch (extractInit demoTasks 1 "OLD")
      { workQueue := [some ("m1", "p1"), some ("m2", "p2"), none], writerQueue := [],
        running := 1, mainPushed := false, writerStarted := true, writerDone := false,
        temp := [], outFile := "", written := [] } :=
    EReach.step EReach.refl (EStep.writerOpen _ rfl)
  have r2 : EReach demoFetch (extractInit demoTasks 1 "OLD")
      { workQueue := [some ("m2", "p2"), none], writerQueue := [some ("m1", "p1")],
        running := 1, mainPushed := false, writerStarted := true, writerDone := false,
        temp := [("p1", "m1\n")], outFile := "", written := [] } :=
    EReach.step r1 (EStep.workerTask _ "m1" "p1" [some ("m2", "p2"), none] (by decide) rfl)
  have r3 : EReach demoFetch (extractInit demoTasks 1 "OLD")
      { workQueue := [none], writerQueue := [some ("m1", "p1"), some ("m2", "p2")],
        running := 1, mainPushed := false, writerStarted := true, writerDone := false,
        temp := [("p1", "m1\n"), ("p2", "m2\n")], outFile := "", written := [] } :=
    EReach.step r2 (EStep.workerTask _ "m2" "p2" [none] (by decide) rfl)
  have r4 : EReach demoFetch (extractInit demoTasks 1 "OLD")
      { workQueue := [], writerQueue := [some ("m1", "p1"), some ("m2", "p2")],
        running := 0, mainPushed := false, writerStarted := true, writerDone := false,
        temp := [("p1", "m1\n"), ("p2", "m2\n")], outFile := "", written := [] } :=
    EReach.step r3 (EStep.workerStop _ [] (by decide) rfl)
  have r5 : EReach demoFetch (extractInit demoTasks 1 "OLD")
      { workQueue := [], writerQueue := [some ("m1", "p1"), some ("m2", "p2"), none],
        running := 0, mainPushed := true, writerStarted := true, writerDone := false,
        temp := [("p1", "m1\n"), ("p2", "m2\n")], outFile := "", written := [] } :=
    EReach.step r4 (EStep.mainDone _ rfl rfl)
  have r6 : EReach demoFetch (extractInit demoTasks 1 "OLD")
      { workQueue := [], writerQueue := [some ("m2", "p2"), none],
        running := 0, mainPushed := true, writerStarted := true, writerDone := false,
        temp := [("p2", "m2\n")], outFile := "m1\n", written := [("m1", "p1")] } :=
    EReach.step r5 (EStep.writerCopy _ "m1" "p1" "m1\n" [some ("m2", "p2"), none] rfl rfl rfl rfl)
  have r7 : EReach demoFetch (extractInit demoTasks 1 "OLD")
      { workQueue := [], writerQueue := [none],
        running := 0, mainPushed := true, writerStarted := true, writerDone := false,
        temp := [], outFile := "m1\nm2\n", written := [("m1", "p1"), ("m2", "p2")] } :=
    EReach.step r6 (EStep.writerCopy _ "m2" "p2" "m2\n" [none] rfl rfl rfl rfl)
  exact EReach.step r7 (EStep.writerStop _ [] rfl rfl rfl)

/-! ## Claim theorems -/

/-- C1: for every extraction run with at least one worker and distinct temp
paths, every terminal state of the scheduler (the writer has consumed its
stop sentinel, which `extract` waits for) has an output file that is exactly
the concatenation of the fetch results of the requested model ids in some
order (the completion order), each id fetched and written exactly once. -/
theorem extract_concatenates_each_model_once (fetch : String → String)
    (tasks : List (String × String)) (threads : Nat) (prior : String) (s : ExtractState)
    (ht : 1 ≤ threads) (hnodup : (tasks.map Prod.snd).Nodup)
    (hr : EReach fetch (extractInit tasks threads prior) s)
    (hdone : s.writerDone = true) :
    ∃ order : List String, order.Perm (tasks.map Prod.fst) ∧
      s.outFile = String.join (order.map fetch) := by
  obtain ⟨hp, ho, -⟩ := extract_final_shape fetch tasks threads prior ht hnodup hr hdone
  exact ⟨s.written.map Prod.fst, hp, ho⟩

/-- Witness for C1: the two-model, one-worker demonstration run. -/
theorem extract_concatenates_each_model_once_witness :
    1 ≤ 1 ∧ (demoTasks.map Prod.snd).Nodup ∧ demoFinal.writerDone = true ∧
    (∃ order : List String, order.Perm (demoTasks.map Prod.fst) ∧
      demoFinal.outFile = String.join (order.map demoFetch)) :=
  ⟨by decide, by decide, rfl,
    extract_concatenates_each_model_once demoFetch demoTasks 1 "OLD" demoFinal (by decide)
      (by decide) demoReach rfl⟩

/-- C2 counterexample: constructing a record from a 1-element list does not
fail; both constructors silently return an unpopulated record. -/
theorem ctor_wrong_arity_silently_succeeds :
    mkHmmerHitTBL ["x"] = Except.ok TBLInit.unpopulated ∧
    mkHmmerHitDOM ["x"] = Except.ok DOMInit.unpopulated ∧
    (["x"] : List String).length ≠ 19 ∧ (["x"] : List String).length ≠ 23 := by
  decide

/-- C2 amended: the constructors populate the record's fields only at the
exact field count (19 short form, 23 per-domain form); at any other count
they silently return an unpopulated record instead of failing. -/
theorem ctor_populates_only_exact_arity (values : List String) :
    (values.length ≠ 19 → mkHmmerHitTBL values = Except.ok TBLInit.unpopulated) ∧
    (values.length ≠ 23 → mkHmmerHitDOM values = Except.ok DOMInit.unpopulated) :=
  ⟨mkTBL_arity values, mkDOM_arity values⟩

/-- Witness for C2 (amended), at the concrete list `["x"]`. -/
theorem ctor_populates_only_exact_arity_witness :
    (["x"] : List String).length ≠ 19 ∧ (["x"] : List String).length ≠ 23 ∧
    mkHmmerHitTBL ["x"] = Except.ok TBLInit.unpopulated ∧
    mkHmmerHitDOM ["x"] = Except.ok DOMInit.unpopulated :=
  ⟨by decide, by decide, (ctor_populates_only_exact_arity ["x"]).1 (by decide),
    (ctor_populates_only_exact_arity ["x"]).2 (by decide)⟩

/-- C3 (code bug): comment lines are skipped (a record further down is still
produced), but a blank line makes `next()` return the end-of-input sentinel
even though a well-formed data line follows, because `line[0]` raises
`IndexError` before the blank-line guard `len(line) != 0` is evaluated; the
following data line alone does produce a record, in both modes. -/
theorem blank_line_ends_iteration :
    producedTBL (nextHitTBL [c3TblLine]) = true ∧
    nextHitTBL ["", c3TblLine] = (Except.ok none, [c3TblLine]) ∧
    producedTBL (nextHitTBL ["# comment", c3TblLine]) = true ∧
    producedDOM (nextHitDOM [c3DomLine]) = true ∧
    nextHitDOM ["", c3DomLine] = (Except.ok none, [c3DomLine]) ∧
    producedDOM (nextHitDOM ["# comment", c3DomLine]) = true := by
  decide

/-- C4: a non-comment, non-blank line whose whitespace-split field count is
below the mode's minimum (19 short form, 23 per-domain) makes `next()`
return a `FormatError` carrying that line — never a record — and the parse
aborts with the error propagated. -/
theorem short_line_raises_format_error (line : String) (rest : List String)
    (hne : pyRstrip line ≠ "") (hcm : pyFirst (pyRstrip line) ≠ '#') :
    ((pySplitWS (pyRstrip (pyRstrip line))).length < 19 →
      nextHitTBL (line :: rest) = (Except.error (PyErr.formatError (pyRstrip line)), rest)) ∧
    ((pySplitWS (pyRstrip (pyRstrip line))).length < 23 →
      nextHitDOM (line :: rest) = (Except.error (PyErr.formatError (pyRstrip line)), rest)) := by
  constructor
  · intro hlt
    simp only [nextHitTBL, readHitsTBL]
    rw [if_neg hne, if_neg hcm, if_pos hlt]
  · intro hlt
    simp only [nextHitDOM, readHitsDOM]
    rw [if_neg hne, if_neg hcm, if_pos hlt]

/-- Witness for C4: the 2-field line `abc def` aborts both modes. -/
theorem short_line_raises_format_error_witness :
    pyRstrip "abc def" ≠ "" ∧ pyFirst (pyRstrip "abc def") ≠ '#' ∧
    (pySplitWS (pyRstrip (pyRstrip "abc def"))).length < 19 ∧
    nextHitTBL ["abc def"] = (Except.error (PyErr.formatError "abc def"), []) ∧
    nextHitDOM ["abc def"] = (Except.error (PyErr.formatError "abc def"), []) :=
  ⟨by decide, by decide, by decide,
    (short_line_raises_format_error "abc def" [] (by decide) (by decide)).1 (by decide),
    (short_line_raises_format_error "abc def" [] (by decide) (by decide)).2 (by decide)⟩

/-- C5 counterexample: the 19-field line `c5BadLine` parses to a record, but
re-serialization rewrites its 12th discrete field `07` to the canonical `7`
and its query-accession field `-` to the query name `Q`, so the first 18
discrete fields are not reproduced byte-for-byte. -/
theorem roundtrip_fails_on_noncanonical_field :
    (pySplitWS c5BadLine).length = 19 ∧
    (serializedOf (nextHitTBL [c5BadLine])).isSome = true ∧
    (serializedOf (nextHitTBL [c5BadLine])).map (fun l => l.getD 11 "") = some "7" ∧
    (pySplitWS c5BadLine).getD 11 "" = "07" ∧
    (serializedOf (nextHitTBL [c5BadLine])).map (fun l => l.getD 3 "") = some "Q" ∧
    (pySplitWS c5BadLine).getD 3 "" = "-" := by
  with_unfolding_all decide

/-- C5 amended: for a valid short-form line with exactly 19 whitespace
-separated fields, parsing then re-serializing reproduces all fields
byte-for-byte provided the query-accession field is not `-` and each of the
fourteen numeric fields is already in Python's canonical `str()` form of its
parsed value; otherwise the re-serialized field is that canonical form (the
query name for a `-` accession). -/
theorem tbl_roundtrip_canonical
    (line : String) (rest : List String)
    (v0 v1 v2 v3 v4 v5 v6 v7 v8 v9 v10 v11 v12 v13 v14 v15 v16 v17 v18 : String)
    (hne : pyRstrip line ≠ "") (hcm : pyFirst (pyRstrip line) ≠ '#')
    (hsplit : pySplitWS (pyRstrip (pyRstrip line)) =
      [v0, v1, v2, v3, v4, v5, v6, v7, v8, v9, v10, v11, v12, v13, v14, v15, v16, v17, v18])
    (hdash : v3 ≠ "-")
    (c4 : (pyFloatParse v4).map pyFloatStr = some v4)
    (c5 : (pyFloatParse v5).map pyFloatStr = some v5)
    (c6 : (pyFloatParse v6).map pyFloatStr = some v6)
    (c7 : (pyFloatParse v7).map pyFloatStr = some v7)
    (c8 : (pyFloatParse v8).map pyFloatStr = some v8)
    (c9 : (pyFloatParse v9).map pyFloatStr = some v9)
    (c10 : (pyFloatParse v10).map pyFloatStr = some v10)
    (c11 : (pyIntParse v11).map pyIntStr = some v11)
    (c12 : (pyIntParse v12).map pyIntStr = some v12)
    (c13 : (pyIntParse v13).map pyIntStr = some v13)
    (c14 : (pyIntParse v14).map pyIntStr = some v14)
    (c15 : (pyIntParse v15).map pyIntStr = some v15)
    (c16 : (pyIntParse v16).map pyIntStr = some v16)
    (c17 : (pyIntParse v17).map pyIntStr = some v17)
    (hrec : (serializedOf (nextHitTBL (line :: rest))).isSome = true) :
    serializedOf (nextHitTBL (line :: rest)) =
      some [v0, v1, v2, v3, v4, v5, v6, v7, v8, v9, v10, v11, v12, v13, v14, v15, v16,
        v17, v18] := by
  rw [tbl_roundtrip_step line rest v0 v1 v2 v3 v4 v5 v6 v7 v8 v9 v10 v11 v12 v13 v14 v15
    v16 v17 v18 hne hcm hsplit] at hrec ⊢
  cases hmk : mkHmmerHitTBL [v0, v1, v2, v3, v4, v5, v6, v7, v8, v9, v10, v11, v12, v13,
      v14, v15, v16, v17, v18] with
  | error e => rw [hmk] at hrec; simp [serializedOf] at hrec
  | ok hit =>
    rw [hmk] at hrec
    cases hit with
    | unpopulated => simp [serializedOf] at hrec
    | populated r =>
      obtain ⟨e0, e1, e2, e3, e4, e5, e6, e7, e8, e9, e10, e11, e12, e13, e14, e15, e16,
        e17, e18⟩ := mkTBL_inv v0 v1 v2 v3 v4 v5 v6 v7 v8 v9 v10 v11 v12 v13 v14 v15 v16
          v17 v18 r hmk
      rw [e4] at c4; rw [e5] at c5; rw [e6] at c6; rw [e7] at c7; rw [e8] at c8
      rw [e9] at c9; rw [e10] at c10; rw [e11] at c11; rw [e12] at c12; rw [e13] at c13
      rw [e14] at c14; rw [e15] at c15; rw [e16] at c16; rw [e17] at c17
      simp [serializedOf, strFieldsTBL, e0, e1, e2, e3, e18, if_neg hdash,
        Option.some.injEq]
      exact ⟨Option.some.inj c4, Option.some.inj c5, Option.some.inj c6,
        Option.some.inj c7, Option.some.inj c8, Option.some.inj c9, Option.some.inj c10,
        Option.some.inj c11, Option.some.inj c12, Option.some.inj c13,
        Option.some.inj c14, Option.some.inj c15, Option.some.inj c16,
        Option.some.inj c17⟩

/-- Witness for C5 (amended): the canonical line `c5CanonLine` round-trips
byte-for-byte. -/
theorem tbl_roundtrip_canonical_witness :
    pyRstrip c5CanonLine ≠ "" ∧ pyFirst (pyRstrip c5CanonLine) ≠ '#' ∧
    serializedOf (nextHitTBL [c5CanonLine]) =
      some ["NODE_1", "-", "Ribosomal_S9", "PF00380.14", "5.9e-48", "158.7", "0.0",
        "6.7e-48", "158.5", "0.0", "1.0", "1", "0", "0", "1", "1", "1", "1", "hit"] :=
  ⟨by decide, by decide,
    tbl_roundtrip_canonical c5CanonLine [] "NODE_1" "-" "Ribosomal_S9" "PF00380.14"
      "5.9e-48" "158.7" "0.0" "6.7e-48" "158.5" "0.0" "1.0" "1" "0" "0" "1" "1" "1" "1"
      "hit" (by decide) (by decide) (by decide) (by decide)
      (by with_unfolding_all decide) (by with_unfolding_all decide)
      (by with_unfolding_all decide) (by with_unfolding_all decide)
      (by with_unfolding_all decide) (by with_unfolding_all decide)
      (by with_unfolding_all decide) (by with_unfolding_all decide)
      (by with_unfolding_all decide) (by with_unfolding_all decide)
      (by with_unfolding_all decide) (by with_unfolding_all decide)
      (by with_unfolding_all decide) (by with_unfolding_all decide)
      (by with_unfolding_all decide)⟩

/-- C6 counterexample: a target-accession field reported as `-` is stored
verbatim, not replaced by the target name, in both record forms. -/
theorem target_accession_not_defaulted :
    (getTBL (mkHmmerHitTBL c6TblVals)).map (fun r => r.target_accession) = some "-" ∧
    (getTBL (mkHmmerHitTBL c6TblVals)).map (fun r => r.target_name) = some "T" ∧
    (getDOM (mkHmmerHitDOM c6DomVals)).map (fun r => r.target_accession) = some "-" ∧
    (getDOM (mkHmmerHitDOM c6DomVals)).map (fun r => r.target_name) = some "T" ∧
    ("-" : String) ≠ "T" := by
  decide

/-- C6 amended: in both record forms only the query accession defaults (to
the query name, exactly when the field is `-`); the target accession is
stored verbatim, `-` included. -/
theorem only_query_accession_defaults
    (v0 v1 v2 v3 v4 v5 v6 v7 v8 v9 v10 v11 v12 v13 v14 v15 v16 v17 v18 : String)
    (w0 w1 w2 w3 w4 w5 w6 w7 w8 w9 w10 w11 w12 w13 w14 w15 w16 w17 w18 w19 w20 w21
      w22 : String)
    (hT : (getTBL (mkHmmerHitTBL [v0, v1, v2, v3, v4, v5, v6, v7, v8, v9, v10, v11, v12,
      v13, v14, v15, v16, v17, v18])).isSome = true)
    (hD : (getDOM (mkHmmerHitDOM [w0, w1, w2, w3, w4, w5, w6, w7, w8, w9, w10, w11, w12,
      w13, w14, w15, w16, w17, w18, w19, w20, w21, w22])).isSome = true) :
    (getTBL (mkHmmerHitTBL [v0, v1, v2, v3, v4, v5, v6, v7, v8, v9, v10, v11, v12, v13,
      v14, v15, v16, v17, v18])).map (fun r => r.target_accession) = some v1 ∧
    (getTBL (mkHmmerHitTBL [v0, v1, v2, v3, v4, v5, v6, v7, v8, v9, v10, v11, v12, v13,
      v14, v15, v16, v17, v18])).map (fun r => r.query_accession) =
      some (if v3 = "-" then v2 else v3) ∧
    (getDOM (mkHmmerHitDOM [w0, w1, w2, w3, w4, w5, w6, w7, w8, w9, w10, w11, w12, w13,
      w14, w15, w16, w17, w18, w19, w20, w21, w22])).map (fun r => r.target_accession) =
      some w1 ∧
    (getDOM (mkHmmerHitDOM [w0, w1, w2, w3, w4, w5, w6, w7, w8, w9, w10, w11, w12, w13,
      w14, w15, w16, w17, w18, w19, w20, w21, w22])).map (fun r => r.query_accession) =
      some (if w4 = "-" then w3 else w4) := by
  cases hmkT : mkHmmerHitTBL [v0, v1, v2, v3, v4, v5, v6, v7, v8, v9, v10, v11, v12, v13,
      v14, v15, v16, v17, v18] with
  | error e => rw [hmkT] at hT; simp [getTBL] at hT
  | ok hitT =>
    cases hitT with
    | unpopulated => rw [hmkT] at hT; simp [getTBL] at hT
    | populated r =>
      cases hmkD : mkHmmerHitDOM [w0, w1, w2, w3, w4, w5, w6, w7, w8, w9, w10, w11, w12,
          w13, w14, w15, w16, w17, w18, w19, w20, w21, w22] with
      | error e => rw [hmkD] at hD; simp [getDOM] at hD
      | ok hitD =>
        cases hitD with
        | unpopulated => rw [hmkD] at hD; simp [getDOM] at hD
        | populated q =>
          obtain ⟨-, e1, -, e3, -, -, -, -, -, -, -, -, -, -, -, -, -, -, -⟩ :=
            mkTBL_inv v0 v1 v2 v3 v4 v5 v6 v7 v8 v9 v10 v11 v12 v13 v14 v15 v16 v17 v18
              r hmkT
          obtain ⟨-, f1, -, f4, -⟩ :=
            mkDOM_inv w0 w1 w2 w3 w4 w5 w6 w7 w8 w9 w10 w11 w12 w13 w14 w15 w16 w17 w18
              w19 w20 w21 w22 q hmkD
          simp [getTBL, getDOM, e1, e3, f1, f4]

/-- Witness for C6 (amended), at `c6TblVals` and `c6DomVals` (accessions
present, so stored verbatim). -/
theorem only_query_accession_defaults_witness :
    (getTBL (mkHmmerHitTBL c6TblVals)).isSome = true ∧
    (getDOM (mkHmmerHitDOM c6DomVals)).isSome = true ∧
    (getTBL (mkHmmerHitTBL c6TblVals)).map (fun r => r.query_accession) = some "QA" ∧
    (getDOM (mkHmmerHitDOM c6DomVals)).map (fun r => r.query_accession) = some "QA" := by
  have h := only_query_accession_defaults "T" "-" "Q" "QA" "1.0" "2.0" "3.0" "4.0" "5.0"
    "6.0" "7.0" "1" "2" "3" "4" "5" "6" "7" "d" "T" "-" "100" "Q" "QA" "200" "1.0" "2.0"
    "3.0" "1" "1" "4.0" "5.0" "6.0" "7.0" "1" "2" "3" "4" "5" "6" "0.9" "d" (by decide)
    (by decide)
  exact ⟨by decide, by decide, by simpa using h.2.1, by simpa using h.2.2.2⟩

/-- C7 counterexample: parsing the spec's 2-line scenario input in short
mode does not yield a record at all: the line has only 17 discrete fields
before the free text, so the 18th discrete field is `desc` and
`int("desc")` raises a `ValueError`. -/
theorem spec_scenario_raises_value_error :
    nextHitTBL c7Input = (Except.error (PyErr.valueError "desc"), []) := by
  decide

/-- C7 amended: with one more numeric field inserted so the line has the 18
discrete fields the layout requires, parsing the 2-line input yields exactly
one record, with target name `A`, query accession `B` (defaulted from the
query name because the accession field is `-`), and description
`desc words here`; the subsequent call returns the sentinel. -/
theorem fixed_scenario_yields_one_record :
    (nextHitTBL c7Fixed).2 = [] ∧
    tblKeyFields (nextHitTBL c7Fixed) = some ("A", "B", "desc words here") ∧
    nextHitTBL [] = (Except.ok none, []) := by
  exact ⟨by decide, by decide, rfl⟩

/-- C8: after every terminal extraction run (at least one worker, distinct
temp paths), no temporary fetch file remains: the writer deleted each one
after copying it into the output file. -/
theorem extract_removes_all_temp_files (fetch : String → String)
    (tasks : List (String × String)) (threads : Nat) (prior : String) (s : ExtractState)
    (ht : 1 ≤ threads) (hnodup : (tasks.map Prod.snd).Nodup)
    (hr : EReach fetch (extractInit tasks threads prior) s)
    (hdone : s.writerDone = true) : s.temp = [] :=
  (extract_final_shape fetch tasks threads prior ht hnodup hr hdone).2.2

/-- Witness for C8: the demonstration run ends with an empty temp
directory. -/
theorem extract_removes_all_temp_files_witness :
    1 ≤ 1 ∧ (demoTasks.map Prod.snd).Nodup ∧ demoFinal.temp = [] :=
  ⟨by decide, by decide,
    extract_removes_all_temp_files demoFetch demoTasks 1 "OLD" demoFinal (by decide)
      (by decide) demoReach rfl⟩

/-- C9 counterexample: a terminal run starting from an output file holding
`OLD` ends with the file holding only the fetched models, in either order;
the prior content is not preserved, because the writer opens the file with
mode `'w'`, not append mode. -/
theorem prior_output_content_discarded :
    EReach demoFetch (extractInit demoTasks 1 "OLD") demoFinal ∧
    demoFinal.writerDone = true ∧ demoFinal.outFile = "m1\nm2\n" ∧
    demoFinal.outFile ≠ "OLD" ++ "m1\nm2\n" ∧
    demoFinal.outFile ≠ "OLD" ++ "m2\nm1\n" :=
  ⟨demoReach, rfl, rfl, by decide, by decide⟩

/-- C9 amended: the writer opens the output file once per call in write
(truncate) mode, so from the moment it opens the file, the file's content is
exactly the concatenation of the models written so far — the content the
file held before the call is discarded, and the fetched models are written
into the empty file. -/
theorem writer_truncates_output_on_open (fetch : String → String)
    (tasks : List (String × String)) (threads : Nat) (prior : String) (s : ExtractState)
    (ht : 1 ≤ threads) (hnodup : (tasks.map Prod.snd).Nodup)
    (hr : EReach fetch (extractInit tasks threads prior) s)
    (hst : s.writerStarted = true) :
    s.outFile = String.join (s.written.map (fun t => fetch t.1)) := by
  obtain ⟨wqts, wrts, -, -, -, -, -, -, -, hout, -⟩ :=
    einv_reach fetch tasks threads prior ht hnodup hr
  exact hout hst

/-- Witness for C9 (amended): the demonstration run from prior content
`OLD`. -/
theorem writer_truncates_output_on_open_witness :
    demoFinal.writerStarted = true ∧
    demoFinal.outFile = String.join (demoFinal.written.map (fun t => demoFetch t.1)) :=
  ⟨rfl, writer_truncates_output_on_open demoFetch demoTasks 1 "OLD" demoFinal (by decide)
    (by decide) demoReach rfl⟩

/-- C10: parser exhaustion is absorbing: with the line source exhausted,
every one of the next `n` calls of `next()` returns the no-more-records
sentinel, in both modes (`readline()` keeps returning the empty string, and
the `IndexError` path keeps returning the sentinel). -/
theorem parser_exhaustion_absorbing (n : Nat) :
    iterTBL n [] = List.replicate n (Except.ok none) ∧
    iterDOM n [] = List.replicate n (Except.ok none) := by
  have hT : ∀ m, iterTBL m [] = List.replicate m (Except.ok none) := by
    intro m
    induction m with
    | zero => rfl
    | succ k ih => simpa [iterTBL, nextHitTBL, readHitsTBL, List.replicate] using ih
  have hD : ∀ m, iterDOM m [] = List.replicate m (Except.ok none) := by
    intro m
    induction m with
    | zero => rfl
    | succ k ih => simpa [iterDOM, nextHitDOM, readHitsDOM, List.replicate] using ih
  exact ⟨hT n, hD n⟩
